import Mathlib

set_option autoImplicit false

/-!
Shallow embedding of the core of the `faker_data_pipeline` repository
(anonymization transform, batch fetcher, quality scorer), together with
theorems settling the specification claims about it.

Conventions: Python machine-independent integers are modelled by `Nat`/`Int`,
Python float arithmetic on the small exact constants involved is modelled by
`ℚ` (exact arithmetic), Python dictionaries by association lists, raised
exceptions by `Except`, and SQL `NULL` by `Option`.
-/

namespace FakerPipeline

/-- Calendar date as produced by Python `datetime.strptime(s, "%Y-%m-%d").date()`. -/
structure Date where
  year : Nat
  month : Nat
  day : Nat
deriving DecidableEq, Repr

/-- Gregorian leap-year rule used by Python `datetime` for day-of-month validation. -/
def isLeapYear (y : Nat) : Bool :=
  y % 4 == 0 && (y % 100 != 0 || y % 400 == 0)

/-- Number of days in month `m` of year `y`, as validated by Python `datetime`. -/
def daysInMonth (y m : Nat) : Nat :=
  if m == 2 then (if isLeapYear y then 29 else 28)
  else if m == 4 || m == 6 || m == 9 || m == 11 then 30
  else 31

/-- Split a character list at every occurrence of `sep` (the semantics of
Python `str.split(sep)` / Lean `String.splitOn` on single-character
separators). -/
def splitFields (sep : Char) : List Char → List (List Char)
  | [] => [[]]
  | c :: rest =>
    match splitFields sep rest with
    | [] => [[c]]
    | h :: t => if c == sep then [] :: h :: t else (c :: h) :: t

/-- Decimal value of a nonempty all-digit character list, `none` otherwise
(the semantics of Lean `String.toNat?`, and of a successful `%Y`/`%m`/`%d`
match in Python `strptime`). -/
def digitsToNat (cs : List Char) : Option Nat :=
  if !cs.isEmpty && cs.all Char.isDigit then
    some (cs.foldl (fun acc c => acc * 10 + (c.toNat - 48)) 0)
  else none

/-- Modelled from Python `datetime.strptime(s, "%Y-%m-%d")` (standard library,
not repository code): the string must consist of three dash-separated decimal
components; the year must lie in `1..9999`, the month in `1..12` and the day
within the month length (leap years respected); anything else raises
`ValueError`, modelled as `none`. -/
def parseDateYMD (s : String) : Option Date :=
  match splitFields (Char.ofNat 45) s.data with
  | [ys, ms, ds] =>
    match digitsToNat ys, digitsToNat ms, digitsToNat ds with
    | some y, some m, some d =>
      if 1 ≤ y && y ≤ 9999 && 1 ≤ m && m ≤ 12 && 1 ≤ d && d ≤ daysInMonth y m
      then some ⟨y, m, d⟩ else none
    | _, _, _ => none
  | _ => none

/-- Raw person record: dataclass `Person` of `data_pipeline/models.py`.
The `address` dict is modelled as an association list of its string-valued
entries (the only ones the pipeline reads). -/
structure Person where
  firstname : String
  lastname : String
  email : String
  email_provider : String
  phone : String
  gender : String
  birthday : String
  address : List (String × String)
deriving DecidableEq, Repr

/-- Python dict subscript `d[k]` on the association-list model: `none` models
the `KeyError` case. -/
def dictGet (d : List (String × String)) (k : String) : Option String :=
  (d.find? (fun kv => kv.1 == k)).map (fun kv => kv.2)

/-- Anonymized person record: dataclass `PersonAnonymized` of
`data_pipeline/models.py`. -/
structure PersonAnonymized where
  firstname : String
  lastname : String
  email_provider : String
  phone : String
  age_group : String
  gender : String
  country : String
  city : String
  street : String
  zipcode : String
  location_masked : Bool
deriving DecidableEq, Repr

/-- Python exceptions that `Person.anonymize` can raise. -/
inductive PyError where
  | keyError (key : String)
  | valueError (msg : String)
deriving DecidableEq, Repr

deriving instance DecidableEq for Except

/-- Python bool coerced into integer arithmetic (`True` is 1, `False` is 0). -/
def boolToInt (b : Bool) : Int := if b then 1 else 0

/-- Python tuple comparison `(a.1, a.2) < (b.1, b.2)` (lexicographic). -/
def pairLtB (a b : Nat × Nat) : Bool :=
  a.1 < b.1 || (a.1 == b.1 && a.2 < b.2)

/-- Age computation of `Person._calculate_age_group` (models.py lines 39-43):
`today.year - birth.year - ((today.month, today.day) < (birth.month, birth.day))`. -/
def calcAge (today birth : Date) : Int :=
  (today.year : Int) - (birth.year : Int)
    - boolToInt (pairLtB (today.month, today.day) (birth.month, birth.day))

/-- Decade bucket of `Person._calculate_age_group` (models.py lines 44-45):
`decade = (age // 10) * 10` (Python `//` is floor division, `Int.fdiv`) and the
f-string produces `[decade-decade+9]` with both bounds rendered in decimal. -/
def calculateAgeGroup (today birth : Date) : String :=
  let age := calcAge today birth
  let decade := (Int.fdiv age 10) * 10
  "[" ++ toString decade ++ "-" ++ toString (decade + 9) ++ "]"

/-- Transform `Person.anonymize` (models.py lines 20-34). The dict literal
evaluates `self.address["country"]` (line 28) before
`self._calculate_age_group()` (line 32), so a missing `country` key raises
`KeyError` first; an unparseable birthday raises `ValueError` inside
`_calculate_age_group`. `today` makes the hidden dependence on
`date.today()` explicit. -/
def Person.anonymize (today : Date) (p : Person) : Except PyError PersonAnonymized :=
  match dictGet p.address "country" with
  | none => .error (.keyError "country")
  | some country =>
    match parseDateYMD p.birthday with
    | none => .error (.valueError "time data does not match format %Y-%m-%d")
    | some birth =>
      .ok { firstname := "****"
            lastname := "****"
            email_provider := p.email_provider
            phone := "****"
            age_group := calculateAgeGroup today birth
            gender := p.gender
            country := country
            city := "****"
            street := "****"
            zipcode := "****"
            location_masked := true }

/-- Membership of a value among the field values of an anonymized record
(the sense in which the record does or does not "contain" an original value). -/
def PersonAnonymized.containsValue (r : PersonAnonymized) (v : String) : Bool :=
  r.firstname == v || r.lastname == v || r.email_provider == v || r.phone == v ||
  r.age_group == v || r.gender == v || r.country == v || r.city == v ||
  r.street == v || r.zipcode == v

/-- Reference date standing for `date.today()` in concrete evaluations. -/
def today0 : Date := ⟨2026, 10, 12⟩

/-- Concrete raw person used to instantiate the theorems (mirrors the mock
person of the repository test suite). -/
def pJohn : Person :=
  { firstname := "John", lastname := "Doe", email := "john.doe@gmail.com"
    email_provider := "gmail.com", phone := "1234567890", gender := "M"
    birthday := "1990-01-01"
    address := [("street", "Main St"), ("city", "Berlin"),
                ("country", "Germany"), ("zipcode", "12345")] }

/-- Output of `Person.anonymize` on `pJohn` at `today0`. -/
def rJohn : PersonAnonymized :=
  { firstname := "****", lastname := "****", email_provider := "gmail.com"
    phone := "****", age_group := "[30-39]", gender := "M", country := "Germany"
    city := "****", street := "****", zipcode := "****", location_masked := true }

example : Person.anonymize today0 pJohn = Except.ok rJohn := by decide

/-- Raw person whose original first name happens to equal the masking
sentinel. -/
def pStar : Person := { pJohn with firstname := "****" }

/-- Raw person with a valid birthday but no `country` entry in the address
dict. -/
def pNoCountry : Person := { pJohn with address := [("city", "Berlin")] }

example : parseDateYMD "1990-01-01" = some ⟨1990, 1, 1⟩ := by decide
example : parseDateYMD "1990-02-30" = none := by decide
example : parseDateYMD "2000-02-29" = some ⟨2000, 2, 29⟩ := by decide
example : calculateAgeGroup ⟨2026, 10, 12⟩ ⟨1990, 1, 1⟩ = "[30-39]" := by decide
example : calculateAgeGroup ⟨2026, 10, 12⟩ ⟨1990, 12, 1⟩ = "[30-39]" := by decide
example : calculateAgeGroup ⟨2026, 10, 12⟩ ⟨2030, 1, 1⟩ = "[-10--1]" := by decide

/-- C1, counterexample: the anonymized record of a raw person whose original
first name is the sentinel string itself does contain the original first-name
value, so the claim's "never contains the original name ... values" fails as
stated. -/
theorem claim_C1_counterexample :
    pStar.firstname = "****" ∧
    (Person.anonymize today0 pStar).map
      (fun r => r.containsValue pStar.firstname) = Except.ok true := by
  decide

/-- C1, amended: whenever `Person.anonymize` produces a record, every masked
field (firstname, lastname, phone, city, street, zipcode) equals the sentinel
`"****"`, `location_masked` is `true`, and every value contained in the record
is either the sentinel or one of the deliberately preserved values
(email provider, gender, address country, derived age group); hence the
original name, phone, street and zipcode values never occur unless they
coincide with one of those. -/
theorem claim_C1 (today : Date) (p : Person) (r : PersonAnonymized)
    (h : Person.anonymize today p = Except.ok r) :
    (r.firstname = "****" ∧ r.lastname = "****" ∧ r.phone = "****" ∧
     r.city = "****" ∧ r.street = "****" ∧ r.zipcode = "****" ∧
     r.location_masked = true) ∧
    (∀ v : String, r.containsValue v = true →
      v = "****" ∨ v = p.email_provider ∨ v = p.gender ∨
      dictGet p.address "country" = some v ∨ v = r.age_group) := by
  unfold Person.anonymize at h
  cases hc : dictGet p.address "country" with
  | none => rw [hc] at h; exact absurd h (by simp)
  | some c =>
    rw [hc] at h
    cases hb : parseDateYMD p.birthday with
    | none => rw [hb] at h; exact absurd h (by simp)
    | some birth =>
      rw [hb] at h
      injection h with h
      subst h
      refine ⟨⟨rfl, rfl, rfl, rfl, rfl, rfl, rfl⟩, ?_⟩
      intro v hv
      simp only [PersonAnonymized.containsValue, Bool.or_eq_true, beq_iff_eq] at hv
      rcases hv with ((((((((h | h) | h) | h) | h) | h) | h) | h) | h) | h <;>
        subst h <;> simp [hc]

/-- C1, witness: the amended theorem instantiated on a concrete person. -/
theorem claim_C1_witness : rJohn.firstname = "****" ∧ rJohn.location_masked = true := by
  have h := claim_C1 today0 pJohn rJohn (by decide)
  exact ⟨h.1.1, h.1.2.2.2.2.2.2⟩

/-- C2: for every raw person whose birthday parses, the produced `age_group`
is exactly the string `[D-(D+9)]` where `D = (age // 10) * 10` by floor
division, the age being current year minus birth year minus one exactly when
the current month/day precede the birth month/day; moreover `D % 10 = 0` and
`D ≤ age ≤ D + 9`. -/
theorem claim_C2 (today birth : Date) (p : Person) (r : PersonAnonymized)
    (hb : parseDateYMD p.birthday = some birth)
    (h : Person.anonymize today p = Except.ok r) :
    calcAge today birth = (today.year : Int) - (birth.year : Int) -
      (if today.month < birth.month ∨ (today.month = birth.month ∧ today.day < birth.day)
       then 1 else 0) ∧
    r.age_group =
      "[" ++ toString ((calcAge today birth).fdiv 10 * 10) ++ "-" ++
      toString ((calcAge today birth).fdiv 10 * 10 + 9) ++ "]" ∧
    (calcAge today birth).fdiv 10 * 10 % 10 = 0 ∧
    (calcAge today birth).fdiv 10 * 10 ≤ calcAge today birth ∧
    calcAge today birth ≤ (calcAge today birth).fdiv 10 * 10 + 9 := by
  have hfd : (calcAge today birth).fdiv 10 = calcAge today birth / 10 :=
    Int.fdiv_eq_ediv _ (by norm_num)
  refine ⟨?_, ?_, ?_, ?_, ?_⟩
  · by_cases hcond : today.month < birth.month ∨
      (today.month = birth.month ∧ today.day < birth.day)
    · rw [if_pos hcond]
      have hp : pairLtB (today.month, today.day) (birth.month, birth.day) = true := by
        simp only [pairLtB, Bool.or_eq_true, Bool.and_eq_true, decide_eq_true_eq, beq_iff_eq]
        omega
      simp [calcAge, boolToInt, hp]
    · rw [if_neg hcond]
      have hp : pairLtB (today.month, today.day) (birth.month, birth.day) = false := by
        simp only [pairLtB, Bool.or_eq_false_iff, Bool.and_eq_false_iff]
        simp only [decide_eq_false_iff_not, beq_eq_false_iff_ne, ne_eq]
        omega
      simp [calcAge, boolToInt, hp]
  · unfold Person.anonymize at h
    cases hc : dictGet p.address "country" with
    | none => rw [hc] at h; exact absurd h (by simp)
    | some c =>
      rw [hc, hb] at h
      injection h with h
      subst h
      rfl
  · rw [hfd]; omega
  · rw [hfd]; omega
  · rw [hfd]; omega

/-- C2, witness: the theorem instantiated on a concrete person born
1990-01-01, evaluated at the reference date. -/
theorem claim_C2_witness :
    rJohn.age_group =
      "[" ++ toString ((calcAge today0 ⟨1990, 1, 1⟩).fdiv 10 * 10) ++ "-" ++
      toString ((calcAge today0 ⟨1990, 1, 1⟩).fdiv 10 * 10 + 9) ++ "]" := by
  have h := claim_C2 today0 ⟨1990, 1, 1⟩ pJohn rJohn (by decide) (by decide)
  exact h.2.1

/-- C3, counterexample: a raw person with a perfectly valid birthday but an
address dict lacking the `country` key makes `Person.anonymize` fail (with a
`KeyError`), contradicting the claim that the only failure case is an
unparseable birthday. -/
theorem claim_C3_counterexample :
    parseDateYMD pNoCountry.birthday = some ⟨1990, 1, 1⟩ ∧
    Person.anonymize today0 pNoCountry =
      Except.error (PyError.keyError "country") := by
  decide

/-- C3, amended: `Person.anonymize` succeeds exactly when the address dict has
a `country` entry and the birthday parses as a valid calendar date; a missing
country fails with `KeyError "country"` (evaluated before the birthday), and
an unparseable birthday (with country present) fails with the `ValueError`
that the spec calls `MalformedInputError`. No other input fails. -/
theorem claim_C3 (today : Date) (p : Person) :
    ((∃ r, Person.anonymize today p = Except.ok r) ↔
      (dictGet p.address "country").isSome = true ∧
      (parseDateYMD p.birthday).isSome = true) ∧
    (dictGet p.address "country" = none →
      Person.anonymize today p = Except.error (PyError.keyError "country")) ∧
    (∀ c, dictGet p.address "country" = some c → parseDateYMD p.birthday = none →
      Person.anonymize today p =
        Except.error (PyError.valueError "time data does not match format %Y-%m-%d")) := by
  unfold Person.anonymize
  cases hc : dictGet p.address "country" with
  | none => simp
  | some c =>
    cases hb : parseDateYMD p.birthday with
    | none => simp
    | some b => simp

/-- C3, witness: on a fully well-formed person the transform succeeds. -/
theorem claim_C3_witness : ∃ r, Person.anonymize today0 pJohn = Except.ok r :=
  (claim_C3 today0 pJohn).1.mpr ⟨by decide, by decide⟩

/-! ### Batch fetcher (`data_pipeline/data_ingestion.py`, class `DataFetcher`) -/

/-- Class constant `DataFetcher.MAX_BATCH_SIZE` (line 50). -/
def MAX_BATCH_SIZE : Nat := 1000

/-- Class constant `DataFetcher.MAX_RETRIES` (line 51). -/
def MAX_RETRIES : Nat := 5

/-- Class constant `DataFetcher.BASE_DELAY` (line 52); the float 1.0 is exact. -/
def BASE_DELAY : ℚ := 1

/-- Class constant `DataFetcher.MAX_DELAY` (line 53); the float 30.0 is exact. -/
def MAX_DELAY : ℚ := 30

/-- Dataclass `FakerAPIConfig` (lines 37-43). -/
structure FakerAPIConfig where
  total : Nat
  gender : String
  batch_size : Nat
deriving DecidableEq, Repr

/-- State stored on the fetcher by `DataFetcher.__init__`. -/
structure DataFetcher where
  total : Nat
  gender : String
  batch_size : Nat
deriving DecidableEq, Repr

/-- Branch of `DataFetcher.__init__` receiving a `FakerAPIConfig` (lines 61-65):
`self.batch_size = min(config.batch_size, self.MAX_BATCH_SIZE)`. -/
def DataFetcher.ofConfig (config : FakerAPIConfig) : DataFetcher :=
  { total := config.total, gender := config.gender
    batch_size := min config.batch_size MAX_BATCH_SIZE }

/-- Branch of `DataFetcher.__init__` receiving plain arguments (lines 66-72):
`self.batch_size = min(batch_size, self.MAX_BATCH_SIZE)`. -/
def DataFetcher.ofArgs (total : Nat) (gender : String) (batch_size : Nat) : DataFetcher :=
  { total := total, gender := gender, batch_size := min batch_size MAX_BATCH_SIZE }

/-- Loop of `DataFetcher._fetch_batches` (lines 93-97):
`while remaining > 0: batch = _fetch_batch(client, min(MAX_BATCH_SIZE, remaining));
persons.extend(batch); remaining -= len(batch)`. The upstream is abstracted by
`api`: `api i size` is the record list the `i`-th successful `_fetch_batch`
call returns when asked for `size` records. The result is the trace of the
loop, one `(requested size, returned batch)` pair per iteration; `fuel` bounds
the number of iterations (the Python loop is unbounded; `none` models not
finishing within `fuel` iterations). Python `remaining` may go negative when a
batch over-delivers, but it is only ever compared against 0, so truncated
`Nat` subtraction is faithful. -/
def fetchBatchesGo {α : Type} (api : Nat → Nat → List α) :
    Nat → Nat → Nat → Option (List (Nat × List α))
  | _, _, 0 => some []
  | 0, _, _+1 => none
  | fuel+1, i, remaining+1 =>
    let req := min MAX_BATCH_SIZE (remaining + 1)
    let batch := api i req
    match fetchBatchesGo api fuel (i + 1) ((remaining + 1) - batch.length) with
    | some rest => some ((req, batch) :: rest)
    | none => none

/-- Trace of `DataFetcher._fetch_batches` on a fetcher: the loop starts with
`remaining = self.total`; `self.total` iterations always suffice when the
upstream honours requested quantities. -/
def DataFetcher.fetchBatches {α : Type} (f : DataFetcher) (api : Nat → Nat → List α) :
    Option (List (Nat × List α)) :=
  fetchBatchesGo api f.total 0 f.total

/-- Sizes the loop requests when every request is answered with exactly the
requested number of records: `min MAX_BATCH_SIZE remaining`, repeatedly. -/
def requestSizes : Nat → List Nat
  | 0 => []
  | n+1 =>
    min MAX_BATCH_SIZE (n + 1) :: requestSizes ((n + 1) - min MAX_BATCH_SIZE (n + 1))
decreasing_by simp only [MAX_BATCH_SIZE]; omega

/-- Upstream that always returns exactly the requested quantity. -/
def apiExact : Nat → Nat → List Unit := fun _ s => List.replicate s ()

lemma requestSizes_zero : requestSizes 0 = [] := by
  rw [requestSizes.eq_def]

lemma requestSizes_succ (m : Nat) :
    requestSizes (m + 1) =
      min MAX_BATCH_SIZE (m + 1) :: requestSizes ((m + 1) - min MAX_BATCH_SIZE (m + 1)) := by
  rw [requestSizes.eq_def]

lemma fetchBatchesGo_exact {α : Type} (api : Nat → Nat → List α)
    (hapi : ∀ i s, (api i s).length = s) :
    ∀ fuel remaining i, remaining ≤ fuel →
      ∃ tr, fetchBatchesGo api fuel i remaining = some tr ∧
        tr.map Prod.fst = requestSizes remaining ∧
        (tr.map (fun b => b.2.length)).sum = remaining := by
  intro fuel
  induction fuel with
  | zero =>
    intro remaining i hle
    have h0 : remaining = 0 := Nat.le_zero.mp hle
    subst h0
    exact ⟨[], rfl, by simp [requestSizes_zero], rfl⟩
  | succ fuel ih =>
    intro remaining i hle
    match remaining with
    | 0 => exact ⟨[], rfl, by simp [requestSizes_zero], rfl⟩
    | m + 1 =>
      have hlen : (api i (min MAX_BATCH_SIZE (m + 1))).length = min MAX_BATCH_SIZE (m + 1) :=
        hapi i _
      have hle2 : (m + 1) - (api i (min MAX_BATCH_SIZE (m + 1))).length ≤ fuel := by
        rw [hlen]
        have : 0 < min MAX_BATCH_SIZE (m + 1) := by
          simp [MAX_BATCH_SIZE]
        omega
      obtain ⟨rest, hrest, hfst, hsum⟩ :=
        ih ((m + 1) - (api i (min MAX_BATCH_SIZE (m + 1))).length) (i + 1) hle2
      refine ⟨(min MAX_BATCH_SIZE (m + 1), api i (min MAX_BATCH_SIZE (m + 1))) :: rest,
        ?_, ?_, ?_⟩
      · simp only [fetchBatchesGo]
        rw [hrest]
      · rw [List.map_cons, hfst, hlen, requestSizes_succ]
      · rw [List.map_cons, List.sum_cons, hsum, hlen]
        have : min MAX_BATCH_SIZE (m + 1) ≤ m + 1 := Nat.min_le_right _ _
        omega

lemma requestSizes_length (n : Nat) :
    (requestSizes n).length = (n + MAX_BATCH_SIZE - 1) / MAX_BATCH_SIZE := by
  induction n using Nat.strong_induction_on with
  | _ n ih =>
    match n with
    | 0 => simp [requestSizes_zero, MAX_BATCH_SIZE]
    | m + 1 =>
      rw [requestSizes_succ, List.length_cons,
        ih ((m + 1) - min MAX_BATCH_SIZE (m + 1)) (by simp only [MAX_BATCH_SIZE]; omega)]
      simp only [MAX_BATCH_SIZE]
      omega

lemma requestSizes_bounds (n : Nat) :
    ∀ s ∈ requestSizes n, 0 < s ∧ s ≤ MAX_BATCH_SIZE := by
  induction n using Nat.strong_induction_on with
  | _ n ih =>
    match n with
    | 0 => intro s hs; rw [requestSizes_zero] at hs; cases hs
    | m + 1 =>
      intro s hs
      rw [requestSizes_succ] at hs
      rcases List.mem_cons.mp hs with h | h
      · subst h
        constructor
        · simp [MAX_BATCH_SIZE]
        · exact Nat.min_le_left _ _
      · exact ih ((m + 1) - min MAX_BATCH_SIZE (m + 1))
          (by simp only [MAX_BATCH_SIZE]; omega) s h

/-- C4, counterexample: a fetcher configured with `total = 25` and
`batchSize = 10`, against an upstream that returns exactly what is asked,
issues a single request of size 25 — not 3 batches of sizes 10, 10, 5 — because
`_fetch_batches` chunks by `MAX_BATCH_SIZE`, ignoring the configured batch
size. -/
theorem claim_C4_counterexample :
    ((DataFetcher.ofArgs 25 "male" 10).fetchBatches apiExact).map
      (fun tr => tr.map Prod.fst) = some [25] ∧ [25] ≠ [10, 10, 5] := by
  decide

/-- C4, amended: for every `total > 0` and every configured batch size, a fetch
against an upstream returning exactly the requested quantity issues
`ceil(total / MAX_BATCH_SIZE)` batch requests — the configured batch size plays
no role in partitioning — each request being of size
`min MAX_BATCH_SIZE remaining` (so of size `MAX_BATCH_SIZE = 1000` except for a
smaller final batch), and the aggregated result has length exactly `total`. -/
theorem claim_C4 {α : Type} (api : Nat → Nat → List α) (total batchSize : Nat) (g : String)
    (hapi : ∀ i s, (api i s).length = s) :
    ∃ tr, (DataFetcher.ofArgs total g batchSize).fetchBatches api = some tr ∧
      tr.map Prod.fst = requestSizes total ∧
      ((tr.map Prod.snd).flatten).length = total ∧
      tr.length = (total + MAX_BATCH_SIZE - 1) / MAX_BATCH_SIZE ∧
      (∀ s ∈ tr.map Prod.fst, 0 < s ∧ s ≤ MAX_BATCH_SIZE) := by
  obtain ⟨tr, htr, hfst, hsum⟩ :=
    fetchBatchesGo_exact api hapi total total 0 (le_refl _)
  refine ⟨tr, htr, hfst, ?_, ?_, ?_⟩
  · rw [List.length_flatten]
    simp only [List.map_map]
    exact hsum
  · have := congrArg List.length hfst
    simpa [requestSizes_length] using this
  · rw [hfst]; exact requestSizes_bounds total

/-- C4, witness: the amended theorem at `total = 2500`, `batchSize = 10`: three
requests of sizes 1000, 1000, 500 and exactly 2500 aggregated records. -/
theorem claim_C4_witness :
    ∃ tr, (DataFetcher.ofArgs 2500 "male" 10).fetchBatches apiExact = some tr ∧
      tr.map Prod.fst = requestSizes 2500 ∧
      ((tr.map Prod.snd).flatten).length = 2500 ∧
      tr.length = (2500 + MAX_BATCH_SIZE - 1) / MAX_BATCH_SIZE ∧
      (∀ s ∈ tr.map Prod.fst, 0 < s ∧ s ≤ MAX_BATCH_SIZE) :=
  claim_C4 apiExact 2500 10 "male" (fun _ s => List.length_replicate s ())

/-- Exception kinds caught by the retry loop of `_fetch_batch` (line 122:
`httpx.HTTPStatusError`, `httpx.RequestError`, `ValueError`). All three are
retryable. -/
inductive RetryableError where
  | httpStatusError (status : Nat)
  | requestError (msg : String)
  | valueError (msg : String)
deriving DecidableEq, Repr

/-- Failure as observed by the caller of `_fetch_batch`. `raised e` is a bare
re-raise of the underlying error (line 130 `raise`) — the only failure the
code produces. `fetchExhausted last` renders the spec's claimed wrapper
error (`FetchExhaustedError` wrapping the last underlying error); no such
wrapper exists in the code, and the constructor is present only so the claim
about it can be stated and settled. -/
inductive FetchFailure where
  | raised (e : RetryableError)
  | fetchExhausted (last : RetryableError)
deriving DecidableEq, Repr

/-- True exactly on the failure shape the spec calls `FetchExhaustedError`. -/
def isFetchExhausted {α : Type} : Except FetchFailure α → Bool
  | .error (.fetchExhausted _) => true
  | _ => false

/-- Retry loop of `_fetch_batch` (data_ingestion.py lines 107-138),
parametrized by what each attempt does: `attempts retry` either returns a
batch or raises a retryable error. `fuel` is the number of iterations left in
`for retry in range(MAX_RETRIES)`; exhausting it falls through to line 138
(`raise ValueError("Failed to fetch data after all retries")`, unreachable
when starting with positive fuel). On a failure at `retry == MAX_RETRIES - 1`
the code logs and bare-raises the caught error (lines 126-130); otherwise it
sleeps and retries. -/
def retryFrom {α : Type} (attempts : Nat → Except RetryableError α) :
    Nat → Nat → Except FetchFailure α
  | _, 0 => .error (.raised (.valueError "Failed to fetch data after all retries"))
  | retry, fuel+1 =>
    match attempts retry with
    | .ok batch => .ok batch
    | .error e =>
      if retry = MAX_RETRIES - 1 then .error (.raised e)
      else retryFrom attempts (retry + 1) fuel

/-- Retry behaviour of `_fetch_batch`: attempt numbering starts at 0 with
`MAX_RETRIES` loop iterations available. -/
def fetchBatchRetry {α : Type} (attempts : Nat → Except RetryableError α) :
    Except FetchFailure α :=
  retryFrom attempts 0 MAX_RETRIES

/-- Attempt behaviour in which every attempt fails with a distinct network
error. -/
def attemptsAllFail : Nat → Except RetryableError (List Unit) :=
  fun i => .error (.requestError (toString i))

lemma retryFrom_agree {α : Type} (a b : Nat → Except RetryableError α) :
    ∀ fuel retry, retry + fuel = MAX_RETRIES →
      (∀ i, i < MAX_RETRIES → a i = b i) →
      retryFrom a retry fuel = retryFrom b retry fuel := by
  intro fuel
  induction fuel with
  | zero => intro retry _ _; rfl
  | succ fuel ih =>
    intro retry hsum hagree
    have hret : retry < MAX_RETRIES := by omega
    simp only [retryFrom, hagree retry hret]
    cases b retry with
    | ok batch => rfl
    | error e =>
      dsimp only
      by_cases hlast : retry = MAX_RETRIES - 1
      · rw [if_pos hlast, if_pos hlast]
      · rw [if_neg hlast, if_neg hlast]
        exact ih (retry + 1) (by omega) hagree

lemma retryFrom_all_fail {α : Type} (a : Nat → Except RetryableError α)
    (e : Nat → RetryableError)
    (hfail : ∀ i, i < MAX_RETRIES → a i = .error (e i)) :
    ∀ fuel retry, retry + fuel = MAX_RETRIES → 0 < fuel →
      retryFrom a retry fuel = .error (.raised (e (MAX_RETRIES - 1))) := by
  intro fuel
  induction fuel with
  | zero => intro retry _ h0; omega
  | succ fuel ih =>
    intro retry hsum _
    have hret : retry < MAX_RETRIES := by omega
    simp only [retryFrom, hfail retry hret]
    by_cases hlast : retry = MAX_RETRIES - 1
    · rw [if_pos hlast, hlast]
    · rw [if_neg hlast]
      have hfuel : 0 < fuel := by
        simp only [MAX_RETRIES] at hsum hlast ⊢
        omega
      exact ih (retry + 1) (by omega) hfuel

/-- C5, counterexample: when all five attempts fail with retryable network
errors, `_fetch_batch` fails by re-raising the last underlying error itself —
the failure is not a `FetchExhaustedError` wrapper as the claim states. -/
theorem claim_C5_counterexample :
    fetchBatchRetry attemptsAllFail =
      Except.error (FetchFailure.raised (RetryableError.requestError "4")) ∧
    isFetchExhausted (fetchBatchRetry attemptsAllFail) = false := by
  decide

/-- C5, amended: for every batch at most `MAX_RETRIES = 5` attempts are made
(the outcome depends only on attempts `0..4`), and if all five attempts fail
with a retryable failure, the fetch fails by re-raising the last underlying
error itself (bare `raise`, no wrapper), so the error is surfaced to the
caller and never silently swallowed. -/
theorem claim_C5 {α : Type} (attempts attemptsB : Nat → Except RetryableError α)
    (e : Nat → RetryableError) :
    ((∀ i, i < MAX_RETRIES → attempts i = .error (e i)) →
      fetchBatchRetry attempts = .error (.raised (e (MAX_RETRIES - 1)))) ∧
    ((∀ i, i < MAX_RETRIES → attempts i = attemptsB i) →
      fetchBatchRetry attempts = fetchBatchRetry attemptsB) := by
  constructor
  · intro hfail
    exact retryFrom_all_fail attempts e hfail MAX_RETRIES 0 rfl (by simp [MAX_RETRIES])
  · intro hagree
    exact retryFrom_agree attempts attemptsB MAX_RETRIES 0 rfl hagree

/-- C5, witness: the amended theorem instantiated on attempts that all fail
with the application-level non-OK marker (`ValueError`). -/
theorem claim_C5_witness :
    fetchBatchRetry (fun _ => Except.error
        (RetryableError.valueError "API returned non-OK status") :
        Nat → Except RetryableError (List Unit)) =
      Except.error (FetchFailure.raised
        (RetryableError.valueError "API returned non-OK status")) := by
  have h := (claim_C5
    (fun _ => (Except.error (RetryableError.valueError "API returned non-OK status") :
      Except RetryableError (List Unit)))
    (fun _ => Except.error (RetryableError.valueError "API returned non-OK status"))
    (fun _ => RetryableError.valueError "API returned non-OK status")).1
  exact h (fun i _ => rfl)

/-- Backoff delay of `_fetch_batch` (lines 123-124):
`delay = min(BASE_DELAY * (2 ** retry), MAX_DELAY); delay *= 0.5 + random.random()`.
`r` stands for the value of `random.random()`, which lies in `[0, 1)`; the
float arithmetic on these values is modelled exactly over `ℚ`. -/
def backoffDelay (retry : Nat) (r : ℚ) : ℚ :=
  min (BASE_DELAY * 2 ^ retry) MAX_DELAY * (1/2 + r)

/-- C6, counterexample: at attempt 0 with `random.random() = 1/2` (a value the
generator can produce), the jitter factor is exactly 1 and the realized delay
equals `min(BASE_DELAY * 2^0, MAX_DELAY)` — not strictly less than it, so the
claimed jitter interval `[0.5, 1.0)` is wrong. -/
theorem claim_C6_counterexample :
    (0 : ℚ) ≤ 1/2 ∧ (1/2 : ℚ) < 1 ∧
    backoffDelay 0 (1/2) = min (BASE_DELAY * 2 ^ 0) MAX_DELAY ∧
    ¬ backoffDelay 0 (1/2) < min (BASE_DELAY * 2 ^ 0) MAX_DELAY := by
  norm_num [backoffDelay, BASE_DELAY, MAX_DELAY]

/-- C6, amended: the jitter factor is `0.5 + random.random()`, uniform in
`[0.5, 1.5)`; hence for every attempt the realized delay is at least
`0.5 * min(BASE_DELAY * 2^attempt, MAX_DELAY)` and strictly less than
`1.5 * min(BASE_DELAY * 2^attempt, MAX_DELAY)`. -/
theorem claim_C6 (retry : Nat) (r : ℚ) (h0 : 0 ≤ r) (h1 : r < 1) :
    1/2 * min (BASE_DELAY * 2 ^ retry) MAX_DELAY ≤ backoffDelay retry r ∧
    backoffDelay retry r < 3/2 * min (BASE_DELAY * 2 ^ retry) MAX_DELAY := by
  have hm : (0 : ℚ) < min (BASE_DELAY * 2 ^ retry) MAX_DELAY := by
    rw [lt_min_iff]
    constructor
    · simp only [BASE_DELAY, one_mul]
      positivity
    · norm_num [MAX_DELAY]
  unfold backoffDelay
  constructor
  · nlinarith
  · nlinarith

/-- C6, witness: the amended bounds at attempt 3 with `random.random() = 1/4`. -/
theorem claim_C6_witness :
    1/2 * min (BASE_DELAY * 2 ^ 3) MAX_DELAY ≤ backoffDelay 3 (1/4) ∧
    backoffDelay 3 (1/4) < 3/2 * min (BASE_DELAY * 2 ^ 3) MAX_DELAY :=
  claim_C6 3 (1/4) (by norm_num) (by norm_num)

/-- C10: both branches of `DataFetcher.__init__` store
`min(batch_size, MAX_BATCH_SIZE)` as the effective batch size, and every
request the fetch loop issues asks for at most `MAX_BATCH_SIZE = 1000`
records, whatever the caller configured. -/
theorem claim_C10 :
    (∀ c : FakerAPIConfig, (DataFetcher.ofConfig c).batch_size = min c.batch_size 1000) ∧
    (∀ (total : Nat) (g : String) (bs : Nat),
      (DataFetcher.ofArgs total g bs).batch_size = min bs 1000) ∧
    (∀ (α : Type) (api : Nat → Nat → List α) (fuel i remaining : Nat)
      (tr : List (Nat × List α)),
      fetchBatchesGo api fuel i remaining = some tr → ∀ p ∈ tr, p.1 ≤ 1000) := by
  refine ⟨fun c => rfl, fun total g bs => rfl, ?_⟩
  intro α api fuel
  induction fuel with
  | zero =>
    intro i remaining tr htr p hp
    match remaining, htr with
    | 0, htr =>
      cases htr
      cases hp
  | succ fuel ih =>
    intro i remaining tr htr p hp
    match remaining with
    | 0 =>
      cases htr
      cases hp
    | m + 1 =>
      simp only [fetchBatchesGo] at htr
      cases hrest : fetchBatchesGo api fuel (i + 1)
          ((m + 1) - (api i (min MAX_BATCH_SIZE (m + 1))).length) with
      | none => rw [hrest] at htr; cases htr
      | some rest =>
        rw [hrest] at htr
        injection htr with htr
        subst htr
        rcases List.mem_cons.mp hp with h | h
        · subst h
          simp only [MAX_BATCH_SIZE]
          exact Nat.min_le_left 1000 (m + 1)
        · exact ih (i + 1) _ rest hrest p h

/-- C10, witness: a fetcher configured with batch size 5000 stores 1000, and a
concrete issued request asks for at most 1000 records. -/
theorem claim_C10_witness :
    (DataFetcher.ofConfig ⟨30000, "male", 5000⟩).batch_size = 1000 ∧ (25 : Nat) ≤ 1000 := by
  constructor
  · rw [claim_C10.1 ⟨30000, "male", 5000⟩]
    decide
  · exact claim_C10.2.2 Unit apiExact 25 0 25 [(25, List.replicate 25 ())]
      (by decide) (25, List.replicate 25 ()) (by decide)

/-! ### Quality scorer (`data_pipeline/utils/quality.py` and
`data_pipeline/report_generation.py`) -/

/-- Row of the `persons` table as the quality queries see it; every column is
nullable (SQL `NULL` is `none`). -/
structure Row where
  firstname : Option String
  lastname : Option String
  phone : Option String
  city : Option String
  street : Option String
  zipcode : Option String
  email_provider : Option String
  country : Option String
  age_group : Option String
  gender : Option String
  location_masked : Option Bool
deriving DecidableEq, Repr

/-- SQL `NULLIF(n, 0)` on a count. -/
def nullifZero (n : Nat) : Option Nat := if n = 0 then none else some n

/-- `_safe_fetch_value` (quality.py lines 90-94) / `safe_fetch_value`
(utils.py): a `NULL` scalar from the database becomes `0.0`. -/
def safeFetchValue (v : Option ℚ) : ℚ := v.getD 0

/-- SQL `COUNT(field)`: number of non-NULL entries of a column. -/
def countNonNull (col : List (Option String)) : Nat := (col.filterMap id).length

/-- SQL `COUNT(DISTINCT field)`: number of distinct non-NULL values. -/
def countDistinct (col : List (Option String)) : Nat := (col.filterMap id).dedup.length

/-- Per-field completeness of `_check_completeness` (quality.py lines 106-118):
`SUM(CASE WHEN field IS NOT NULL THEN 1 ELSE 0 END)::FLOAT / NULLIF(COUNT(*), 0)`,
a NULL result (empty table) fetched back as 0.0. -/
def checkCompletenessField (col : List (Option String)) : ℚ :=
  safeFetchValue ((nullifZero col.length).map (fun n => (countNonNull col : ℚ) / n))

/-- Per-field uniqueness of `_check_uniqueness` (quality.py lines 121-133):
`COUNT(DISTINCT field)::FLOAT / NULLIF(COUNT(*), 0)` — the denominator is the
total row count, NULLs included. -/
def checkUniquenessField (col : List (Option String)) : ℚ :=
  safeFetchValue ((nullifZero col.length).map (fun n => (countDistinct col : ℚ) / n))

/-- Per-field uniqueness of `check_data_quality` in report_generation.py
(lines 52-58): `COUNT(DISTINCT field)::FLOAT / NULLIF(COUNT(field), 0)` — the
denominator is the non-NULL count. -/
def reportUniquenessField (col : List (Option String)) : ℚ :=
  safeFetchValue ((nullifZero (countNonNull col)).map (fun n => (countDistinct col : ℚ) / n))

/-- SQL `field LIKE '****%'` on a nullable column: a NULL operand yields NULL,
which the surrounding `CASE WHEN` treats like false. -/
def likeMaskPrefix : Option String → Bool
  | some s => s.data.take 4 == "****".data
  | none => false

/-- Row predicate of `_check_pii_masking` (quality.py lines 136-154): all six
PII columns carry the sentinel prefix and `location_masked = true` (a NULL
flag fails the SQL equality). -/
def rowPiiMasked (r : Row) : Bool :=
  likeMaskPrefix r.firstname && likeMaskPrefix r.lastname && likeMaskPrefix r.phone &&
  likeMaskPrefix r.city && likeMaskPrefix r.street && likeMaskPrefix r.zipcode &&
  r.location_masked == some true

/-- PII-masking ratio of `_check_pii_masking`: masked rows over all rows,
`COALESCE(.. / NULLIF(COUNT(*), 0), 0.0)`. -/
def piiMaskRatio (table : List Row) : ℚ :=
  safeFetchValue ((nullifZero table.length).map
    (fun n => ((table.filter rowPiiMasked).length : ℚ) / n))

/-- Parse an age-group string against the SQL pattern `\[\d+-\d+\]` of
`_check_format_validity` / `_count_valid_records`: an opening bracket
(character 91), a nonempty digit run, a dash (45), a nonempty digit run and a
closing bracket (93); returns the two bounds. -/
def ageGroupParts (s : String) : Option (Nat × Nat) :=
  match s.data with
  | [] => none
  | c :: rest =>
    if c != Char.ofNat 91 then none
    else
      match rest.getLast? with
      | none => none
      | some d =>
        if d != Char.ofNat 93 then none
        else
          match splitFields (Char.ofNat 45) rest.dropLast with
          | [a, b] =>
            match digitsToNat a, digitsToNat b with
            | some la, some lb => some (la, lb)
            | _, _ => none
          | _ => none

/-- `SIMILAR TO '\[\d+-\d+\]'` alone (used by `_count_valid_records`). -/
def ageGroupPatternOk (s : String) : Bool := (ageGroupParts s).isSome

/-- Full validity check of `_check_format_validity` (quality.py lines 157-172):
the pattern plus `low ≤ high` on the extracted bounds. -/
def ageGroupFormatOk (s : String) : Bool :=
  match ageGroupParts s with
  | some (la, lb) => decide (la ≤ lb)
  | none => false

/-- Lift a nullable column entry through a string predicate, NULL failing. -/
def optHolds (p : String → Bool) : Option String → Bool
  | some s => p s
  | none => false

/-- Format-validity ratio for `age_group` of `_check_format_validity`:
valid rows over all rows, `COALESCE(.. / NULLIF(COUNT(*), 0), 0.0)`. -/
def formatValidityAgeGroup (table : List Row) : ℚ :=
  safeFetchValue ((nullifZero table.length).map
    (fun n => ((table.filter (fun r => optHolds ageGroupFormatOk r.age_group)).length : ℚ) / n))

/-- Row predicate of `_count_valid_records` (quality.py lines 204-214): the
four scored fields non-NULL, the age-group pattern (without the bound order
check) and `location_masked = true`. -/
def validRecord (r : Row) : Bool :=
  r.email_provider.isSome && r.country.isSome && r.age_group.isSome && r.gender.isSome &&
  optHolds ageGroupPatternOk r.age_group && r.location_masked == some true

/-- `_count_valid_records`. -/
def countValidRecords (table : List Row) : Nat := (table.filter validRecord).length

/-- Dataclass `QualityMetrics` (quality.py lines 23-33). The per-field dicts
are modelled by their value lists in field order (only the values and the
entry count enter `overall_score`). -/
structure QualityMetrics where
  completeness : List ℚ
  uniqueness : List ℚ
  pii_masking : ℚ
  format_validity : List ℚ
  total_records : Nat
  valid_records : Nat
deriving DecidableEq, Repr

/-- Property `QualityMetrics.overall_score` (quality.py lines 34-52). If the
completeness or uniqueness dict is empty the guard logs a warning and returns
0.0 outright; otherwise the three mean scores are computed — where an empty
`format_validity` dict makes line 45 divide by `len(...) = 0`, raising
`ZeroDivisionError`, modelled as `none` — and combined with weights
`{completeness: 0.4, uniqueness: 0.3, pii: 0.2, format: 0.1}`. -/
def overallScore (m : QualityMetrics) : Option ℚ :=
  if m.completeness.isEmpty || m.uniqueness.isEmpty then
    some 0
  else if m.format_validity.isEmpty then
    none
  else
    some (m.completeness.sum / m.completeness.length * (4/10)
      + m.uniqueness.sum / m.uniqueness.length * (3/10)
      + m.pii_masking * (2/10)
      + m.format_validity.sum / m.format_validity.length * (1/10))

/-- The scored field set of `check_data_quality` (quality.py line 184). -/
inductive QField where
  | email_provider
  | country
  | age_group
  | gender
deriving DecidableEq, Repr

/-- Column access for a scored field. -/
def Row.getQ (r : Row) : QField → Option String
  | .email_provider => r.email_provider
  | .country => r.country
  | .age_group => r.age_group
  | .gender => r.gender

/-- Field order of `fields = ["email_provider", "country", "age_group", "gender"]`. -/
def qFields : List QField := [.email_provider, .country, .age_group, .gender]

/-- Column of a scored field over the whole table. -/
def getCol (table : List Row) (f : QField) : List (Option String) :=
  table.map (fun r => r.getQ f)

/-- `check_data_quality` (quality.py lines 175-201): fewer than 2 persisted
records raises `ValueError("Need at least 2 records for meaningful metrics")`
— the spec's `InsufficientDataError`; otherwise the metrics container is
built from the component queries. -/
def checkDataQuality (table : List Row) : Except String QualityMetrics :=
  if table.length < 2 then
    .error "Need at least 2 records for meaningful metrics"
  else
    .ok { completeness := qFields.map (fun f => checkCompletenessField (getCol table f))
          uniqueness := qFields.map (fun f => checkUniquenessField (getCol table f))
          pii_masking := piiMaskRatio table
          format_validity := [formatValidityAgeGroup table]
          total_records := table.length
          valid_records := countValidRecords table }

/-- Fully masked, well-formed persisted row. -/
def rowOk : Row :=
  { firstname := some "****", lastname := some "****", phone := some "****"
    city := some "****", street := some "****", zipcode := some "****"
    email_provider := some "gmail.com", country := some "Germany"
    age_group := some "[30-39]", gender := some "M", location_masked := some true }

/-- Second well-formed row with some values varied. -/
def rowOk2 : Row :=
  { rowOk with email_provider := some "web.de", age_group := some "[40-49]" }

/-- C7, counterexample: on a column holding one value and one NULL,
`_check_uniqueness` (utils/quality.py) yields 1/2 — distinct-non-null divided
by the total row count — while the claimed ratio (distinct non-null divided by
non-null count) is 1. -/
theorem claim_C7_counterexample :
    checkUniquenessField [some "a", none] = 1/2 ∧
    (countDistinct [some "a", none] : ℚ) / (countNonNull [some "a", none] : ℚ) = 1 ∧
    (1/2 : ℚ) ≠ 1 := by
  have hd : countDistinct [some "a", none] = 1 := by decide
  have hn : countNonNull [some "a", none] = 1 := by decide
  refine ⟨?_, ?_, by norm_num⟩
  · simp [checkUniquenessField, nullifZero, safeFetchValue, hd]
  · rw [hd, hn]
    norm_num

/-- C7, amended: the uniqueness ratio of report_generation.py equals distinct
non-null over non-null count (0 when there are no non-null values), but the
uniqueness ratio of `_check_uniqueness` in utils/quality.py equals distinct
non-null over the total row count, NULLs included (0 when the table is
empty). -/
theorem claim_C7 (col : List (Option String)) :
    reportUniquenessField col =
      (if countNonNull col = 0 then 0 else (countDistinct col : ℚ) / (countNonNull col : ℚ)) ∧
    checkUniquenessField col =
      (if col.length = 0 then 0 else (countDistinct col : ℚ) / (col.length : ℚ)) := by
  constructor
  · by_cases h : countNonNull col = 0 <;>
      simp [reportUniquenessField, nullifZero, safeFetchValue, h]
  · by_cases h : col.length = 0 <;>
      simp [checkUniquenessField, nullifZero, safeFetchValue, h]

/-- C8, counterexample: a metrics container with an empty completeness dict
but nonempty uniqueness and format dicts and full PII masking scores 0.0
outright — the nonempty components contribute nothing, contradicting the
claim that only the empty component's contribution is zeroed. -/
theorem claim_C8_counterexample :
    overallScore ⟨[], [1], 1, [1], 2, 2⟩ = some 0 ∧
    (0 : ℚ) ≠ 3/10 * 1 + 2/10 * 1 + 1/10 * 1 := by
  refine ⟨by simp [overallScore], by norm_num⟩

/-- C8, amended: if the completeness or uniqueness ratio set is empty,
`overall_score` is 0 with a logged warning and no other component contributes;
if both are nonempty but the format-validity set is empty, the computation
crashes with `ZeroDivisionError`; otherwise the score is
`0.4 * mean(completeness) + 0.3 * mean(uniqueness) + 0.2 * pii + 0.1 * mean(format)`. -/
theorem claim_C8 (m : QualityMetrics) :
    (m.completeness = [] ∨ m.uniqueness = [] → overallScore m = some 0) ∧
    (m.completeness ≠ [] → m.uniqueness ≠ [] → m.format_validity = [] →
      overallScore m = none) ∧
    (m.completeness ≠ [] → m.uniqueness ≠ [] → m.format_validity ≠ [] →
      overallScore m =
        some (4/10 * (m.completeness.sum / m.completeness.length)
          + 3/10 * (m.uniqueness.sum / m.uniqueness.length)
          + 2/10 * m.pii_masking
          + 1/10 * (m.format_validity.sum / m.format_validity.length))) := by
  refine ⟨?_, ?_, ?_⟩
  · intro h
    rcases h with h | h <;> simp [overallScore, h]
  · intro h1 h2 h3
    simp [overallScore, h1, h2, h3]
  · intro h1 h2 h3
    unfold overallScore
    rw [if_neg (by simp [h1, h2]), if_neg (by simp [h3])]
    congr 1
    ring

/-- Metrics container with all four components nonempty. -/
def mW : QualityMetrics := ⟨[1, 1/2], [1], 3/4, [1], 2, 2⟩

/-- C8, witness: the amended formula instantiated on a concrete container. -/
theorem claim_C8_witness :
    overallScore mW =
      some (4/10 * (mW.completeness.sum / mW.completeness.length)
        + 3/10 * (mW.uniqueness.sum / mW.uniqueness.length)
        + 2/10 * mW.pii_masking
        + 1/10 * (mW.format_validity.sum / mW.format_validity.length)) :=
  (claim_C8 mW).2.2 (by decide) (by decide) (by decide)

/-- C9: `check_data_quality` fails with
`ValueError("Need at least 2 records for meaningful metrics")` — the spec's
`InsufficientDataError` — exactly when the persisted dataset has fewer than 2
rows, and produces a metrics snapshot on every dataset of 2 or more rows. -/
theorem claim_C9 (table : List Row) :
    (table.length < 2 →
      checkDataQuality table =
        Except.error "Need at least 2 records for meaningful metrics") ∧
    (2 ≤ table.length →
      ∃ m, checkDataQuality table = Except.ok m ∧ m.total_records = table.length) := by
  constructor
  · intro h
    simp [checkDataQuality, h]
  · intro h
    have hlt : ¬ table.length < 2 := by omega
    refine ⟨{ completeness := qFields.map (fun f => checkCompletenessField (getCol table f))
              uniqueness := qFields.map (fun f => checkUniquenessField (getCol table f))
              pii_masking := piiMaskRatio table
              format_validity := [formatValidityAgeGroup table]
              total_records := table.length
              valid_records := countValidRecords table }, ?_, rfl⟩
    unfold checkDataQuality
    rw [if_neg hlt]

/-- C9, witness: the theorem instantiated on datasets of 0, 1 and 2 rows. -/
theorem claim_C9_witness :
    checkDataQuality ([] : List Row) =
      Except.error "Need at least 2 records for meaningful metrics" ∧
    checkDataQuality [rowOk] =
      Except.error "Need at least 2 records for meaningful metrics" ∧
    (∃ m, checkDataQuality [rowOk, rowOk2] = Except.ok m ∧ m.total_records = 2) :=
  ⟨(claim_C9 []).1 (by decide), (claim_C9 [rowOk]).1 (by decide),
   (claim_C9 [rowOk, rowOk2]).2 (by decide)⟩

end FakerPipeline
